import Mathlib

/-!
Shallow embedding of the expense-management API (`core/main.py`,
`core/schemas.py`, `core/models.py`).

Conventions of the embedding:
* The relational store is a record of lists of rows (`DB`), one list per
  table, plus one auto-increment counter per table.
* Each HTTP handler becomes a function `DB → Except ApiError (α × DB)`;
  raising `HTTPException` is `Except.error`, and an error result leaves the
  caller's `DB` untouched (FastAPI rolls nothing in: the handler raised
  before `db.commit()` or the session is discarded).
* Pydantic schemas become structures of raw field values together with a
  validation function `Except String schema` that applies the `Field`
  constraints and `field_validator`s of `core/schemas.py`.
* Python `Decimal` values are embedded as an integer mantissa together with
  a count of fractional digits (`Dec`), so `Decimal("12.50")` is
  `⟨1250, 2⟩`.  The `Numeric(12, 2)` columns of `core/models.py` store at
  scale 2, embedded by `Dec.quant2`.
* `Optional[T] = None` fields of update schemas combined with
  `model_dump(exclude_unset=True)` are embedded as `Option`: `none` means
  the field was absent from the payload.  For the nullable column
  `category_id` an explicitly supplied `null` is meaningful, so there the
  payload field is `Option (Option Nat)`.
-/

/-- A Python `Decimal`: value `num / 10 ^ scale`, with `scale` fractional
digits as written (`Decimal("1.00")` is `⟨100, 2⟩`, `Decimal("1")` is
`⟨1, 0⟩`). -/
structure Dec where
  num : Int
  scale : Nat
  deriving DecidableEq, Repr

/-- The rational value denoted by a `Dec`. -/
def Dec.val (d : Dec) : ℚ := (d.num : ℚ) / (10 : ℚ) ^ d.scale

/-- Storage at a `Numeric(12, 2)` column: the value re-read from the store
has exactly 2 fractional digits.  Exact whenever `scale ≤ 2`. -/
def Dec.quant2 (d : Dec) : Dec := ⟨d.num * 10 ^ (2 - d.scale), 2⟩

/-- A calendar date (`datetime.date`). -/
structure CalDate where
  year : Nat
  month : Nat
  day : Nat
  deriving DecidableEq, Repr

/-- `d1 <= d2` on dates, used by the `expense_date` range filters. -/
def CalDate.le (d1 d2 : CalDate) : Bool :=
  (d1.year < d2.year) ||
  (d1.year == d2.year && d1.month < d2.month) ||
  (d1.year == d2.year && d1.month == d2.month && d1.day ≤ d2.day)

/-- ASCII lowercase of a character, embedding the case folding of Python's
`str.lower()` / SQL `ILIKE` on the ASCII data this API handles. -/
def lowerChar (c : Char) : Char :=
  if 65 ≤ c.toNat ∧ c.toNat ≤ 90 then Char.ofNat (c.toNat + 32) else c

/-- ASCII lowercase of a string (`value.lower()`). -/
def strLower (s : String) : String := ⟨s.data.map lowerChar⟩

/-- Case-insensitive substring match, embedding
`column.ilike(f'%{q}%')`. -/
def ilikeContains (hay pat : String) : Bool :=
  decide ((strLower pat).data <:+: (strLower hay).data)

/-- Python truthiness of an `Optional[str]` query parameter: `None` and
`""` are falsy. -/
def strTruthy : Option String → Bool
  | none => false
  | some s => s ≠ ""

/-- Python truthiness of an `Optional[int]` value: `None` and `0` are
falsy. -/
def natTruthy : Option Nat → Bool
  | none => false
  | some n => n ≠ 0

-- ==================== Rows (`core/models.py`) ====================

/-- Row of the `users` table. -/
structure User where
  id : Nat
  username : String
  email : String
  hashed_password : String
  is_active : Bool
  deriving DecidableEq, Repr

/-- Row of the `categories` table. -/
structure Category where
  id : Nat
  name : String
  description : Option String
  icon : Option String
  color : Option String
  deriving DecidableEq, Repr

/-- Row of the `tags` table. -/
structure Tag where
  id : Nat
  name : String
  color : Option String
  deriving DecidableEq, Repr

/-- Row of the `expenses` table.  `amount` sits in a `Numeric(12, 2)`
column; `category_id` is nullable with `ondelete='SET NULL'`. -/
structure Expense where
  id : Nat
  user_id : Nat
  category_id : Option Nat
  description : String
  amount : Dec
  expense_date : CalDate
  receipt_image : Option String
  deriving DecidableEq, Repr

/-- Row of the `expense_tags` association table. -/
structure ExpenseTag where
  expense_id : Nat
  tag_id : Nat
  deriving DecidableEq, Repr

/-- Row of the `budgets` table.  `category_id` is nullable with
`ondelete='CASCADE'`; `user_id` has `ondelete='CASCADE'`. -/
structure Budget where
  id : Nat
  user_id : Nat
  category_id : Option Nat
  amount : Dec
  period : String
  start_date : CalDate
  deriving DecidableEq, Repr

/-- The relational store: one list per table plus the per-table
auto-increment counters. -/
structure DB where
  users : List User
  categories : List Category
  tags : List Tag
  expenses : List Expense
  expense_tags : List ExpenseTag
  budgets : List Budget
  nextUserId : Nat
  nextCategoryId : Nat
  nextTagId : Nat
  nextExpenseId : Nat
  nextBudgetId : Nat
  deriving DecidableEq, Repr

/-- The empty store. -/
def DB.empty : DB := ⟨[], [], [], [], [], [], 1, 1, 1, 1, 1⟩

-- ==================== Schemas (`core/schemas.py`) ====================

/-- `UserCreateSchema`: raw payload fields. -/
structure UserCreateSchema where
  username : String
  email : String
  password : String
  deriving DecidableEq, Repr

/-- Pydantic validation of `UserCreateSchema`: `username` 3–50 chars,
`email` at most 100 chars, `password` at least 8 chars. -/
def validateUserCreate (u : UserCreateSchema) : Except String UserCreateSchema :=
  if u.username.length < 3 then .error "username: min_length 3"
  else if 50 < u.username.length then .error "username: max_length 50"
  else if 100 < u.email.length then .error "email: max_length 100"
  else if u.password.length < 8 then .error "password: min_length 8"
  else .ok u

/-- `CategoryCreateSchema`: raw payload fields. -/
structure CategoryCreateSchema where
  name : String
  description : Option String
  icon : Option String
  color : Option String
  deriving DecidableEq, Repr

/-- Length check for an optional string field with a `max_length`. -/
def optLenLe (s : Option String) (n : Nat) : Bool :=
  match s with
  | none => true
  | some v => v.length ≤ n

/-- Pydantic validation of `CategoryCreateSchema`. -/
def validateCategoryCreate (c : CategoryCreateSchema) : Except String CategoryCreateSchema :=
  if 50 < c.name.length then .error "name: max_length 50"
  else if !optLenLe c.description 200 then .error "description: max_length 200"
  else if !optLenLe c.icon 50 then .error "icon: max_length 50"
  else if !optLenLe c.color 20 then .error "color: max_length 20"
  else .ok c

/-- `TagCreateSchema`: raw payload fields. -/
structure TagCreateSchema where
  name : String
  color : Option String
  deriving DecidableEq, Repr

/-- Pydantic validation of `TagCreateSchema`. -/
def validateTagCreate (t : TagCreateSchema) : Except String TagCreateSchema :=
  if 30 < t.name.length then .error "name: max_length 30"
  else if !optLenLe t.color 20 then .error "color: max_length 20"
  else .ok t

/-- `ExpenseCreateSchema` (extends `BaseExpenseSchema`): raw payload
fields. -/
structure ExpenseCreateSchema where
  description : String
  amount : Dec
  category_id : Option Nat
  expense_date : CalDate
  receipt_image : Option String
  tag_ids : Option (List Nat)
  deriving DecidableEq, Repr

/-- The `BaseExpenseSchema` checks: `description` at most 200 chars (the
`Field` bound and `validate_description` impose the same condition — the
validator checks length only), `amount` with `gt=0` and
`decimal_places=2`. -/
def validateExpenseBase (description : String) (amount : Dec) : Except String Unit :=
  if 200 < description.length then .error "Description must not exceed 200 characters"
  else if amount.num ≤ 0 then .error "amount: gt 0"
  else if 2 < amount.scale then .error "amount: decimal_places 2"
  else .ok ()

/-- Pydantic validation of `ExpenseCreateSchema`. -/
def validateExpenseCreate (e : ExpenseCreateSchema) : Except String ExpenseCreateSchema :=
  match validateExpenseBase e.description e.amount with
  | .error m => .error m
  | .ok _ =>
    if !optLenLe e.receipt_image 255 then .error "receipt_image: max_length 255"
    else .ok e

/-- `ExpenseUpdateSchema`: every field optional; `none` means absent from
the payload.  `category_id` is a nullable column, so a supplied `null` is
`some none`. -/
structure ExpenseUpdateSchema where
  description : Option String
  amount : Option Dec
  category_id : Option (Option Nat)
  expense_date : Option CalDate
  receipt_image : Option String
  tag_ids : Option (List Nat)
  deriving DecidableEq, Repr

/-- Pydantic validation of `ExpenseUpdateSchema`: constraints apply only to
fields that are present. -/
def validateExpenseUpdate (e : ExpenseUpdateSchema) : Except String ExpenseUpdateSchema :=
  if !optLenLe e.description 200 then .error "description: max_length 200"
  else if e.amount.elim false (fun a => a.num ≤ 0) then .error "amount: gt 0"
  else if e.amount.elim false (fun a => 2 < a.scale) then .error "amount: decimal_places 2"
  else if !optLenLe e.receipt_image 255 then .error "receipt_image: max_length 255"
  else .ok e

/-- The enumeration accepted by `validate_period`. -/
def allowed_periods : List String := ["daily", "weekly", "monthly", "yearly"]

/-- `BudgetCreateSchema` (= `BudgetBase`): raw payload fields. -/
structure BudgetCreateSchema where
  category_id : Option Nat
  amount : Dec
  period : String
  start_date : CalDate
  deriving DecidableEq, Repr

/-- Pydantic validation of `BudgetCreateSchema`: `amount` with `gt=0` and
`decimal_places=2`, `period` at most 20 chars and, per `validate_period`,
lowercased and required to be one of `allowed_periods`; the lowercased form
is what the schema carries ("normalized"). -/
def validateBudgetCreate (b : BudgetCreateSchema) : Except String BudgetCreateSchema :=
  if b.amount.num ≤ 0 then .error "amount: gt 0"
  else if 2 < b.amount.scale then .error "amount: decimal_places 2"
  else if 20 < b.period.length then .error "period: max_length 20"
  else if strLower b.period ∈ allowed_periods then
    .ok { b with period := strLower b.period }
  else .error "Period must be one of: daily, weekly, monthly, yearly"

/-- `BudgetUpdateSchema`: every field optional; `none` means absent.
`category_id` is nullable, so a supplied `null` is `some none`. -/
structure BudgetUpdateSchema where
  category_id : Option (Option Nat)
  amount : Option Dec
  period : Option String
  start_date : Option CalDate
  deriving DecidableEq, Repr

/-- Pydantic validation of `BudgetUpdateSchema`: the same checks as on
creation, applied only to fields present in the payload; a present `period`
is lowercased. -/
def validateBudgetUpdate (b : BudgetUpdateSchema) : Except String BudgetUpdateSchema :=
  if b.amount.elim false (fun a => a.num ≤ 0) then .error "amount: gt 0"
  else if b.amount.elim false (fun a => 2 < a.scale) then .error "amount: decimal_places 2"
  else if !optLenLe b.period 20 then .error "period: max_length 20"
  else
    match b.period with
    | none => .ok b
    | some p =>
      if strLower p ∈ allowed_periods then .ok { b with period := some (strLower p) }
      else .error "Period must be one of: daily, weekly, monthly, yearly"

-- ==================== Handlers (`core/main.py`) ====================

/-- The error outcomes a handler can surface: `HTTPException(404, ...)`,
`HTTPException(400, ...)`, or a pydantic validation failure (FastAPI's
422). -/
inductive ApiError where
  | notFound (detail : String)
  | badRequest (detail : String)
  | validation (detail : String)
  deriving DecidableEq, Repr

/-- `GET /categories`: optional case-insensitive name search; with a truthy
`q` and no match, 404 `'No category found'`. -/
def get_categories (q : Option String) (db : DB) : Except ApiError (List Category) :=
  let query := db.categories
  let query := if strTruthy q then query.filter (fun c => ilikeContains c.name (q.getD "")) else query
  if strTruthy q && query.isEmpty then .error (.notFound "No category found")
  else .ok query

/-- `POST /categories` handler body: name-uniqueness pre-check, then
insert. -/
def create_category (c : CategoryCreateSchema) (db : DB) : Except ApiError (Category × DB) :=
  if (db.categories.find? (fun x => x.name == c.name)).isSome then
    .error (.badRequest "Category name already exists")
  else
    let row : Category := ⟨db.nextCategoryId, c.name, c.description, c.icon, c.color⟩
    .ok (row, { db with categories := db.categories ++ [row],
                        nextCategoryId := db.nextCategoryId + 1 })

/-- `DELETE /categories/{category_id}`: 404 if absent; otherwise
`db.delete(db_category)` through the ORM.  `Category.expenses` and
`Category.budgets` (`core/models.py:58-59`) are plain relationships with no
delete cascade and no `passive_deletes`, so the unit of work de-associates
the loaded children before emitting the DELETE: both referencing expenses
AND referencing budgets get `category_id` set to NULL (both columns are
nullable), and the column-level `ondelete` actions never fire — no
referencing row remains when the DELETE runs, and the default SQLite engine
of `core/database.py` does not enforce foreign keys anyway.  Budget rows
therefore survive with a nulled reference, despite the declared
`ondelete='CASCADE'` on `budgets.category_id`. -/
def delete_category (category_id : Nat) (db : DB) : Except ApiError (String × DB) :=
  match db.categories.find? (fun c => c.id == category_id) with
  | none => .error (.notFound "Category not found")
  | some _ =>
    .ok ("Category removed successfully",
      { db with
        categories := db.categories.filter (fun c => c.id ≠ category_id),
        expenses := db.expenses.map (fun e =>
          if e.category_id == some category_id then { e with category_id := none } else e),
        budgets := db.budgets.map (fun b =>
          if b.category_id == some category_id then { b with category_id := none } else b) })

/-- `GET /tags`: optional case-insensitive name search; always returns the
(possibly empty) collection — no 404 branch exists. -/
def get_tags (q : Option String) (db : DB) : Except ApiError (List Tag) :=
  let query := db.tags
  let query := if strTruthy q then query.filter (fun t => ilikeContains t.name (q.getD "")) else query
  .ok query

/-- `POST /tags` handler body: name-uniqueness pre-check, then insert. -/
def create_tag (t : TagCreateSchema) (db : DB) : Except ApiError (Tag × DB) :=
  if (db.tags.find? (fun x => x.name == t.name)).isSome then
    .error (.badRequest "Tag name already exists")
  else
    let row : Tag := ⟨db.nextTagId, t.name, t.color⟩
    .ok (row, { db with tags := db.tags ++ [row], nextTagId := db.nextTagId + 1 })

/-- `GET /expenses`: optional description search plus foreign-key and date
filters; with a truthy `q` and no match, 404. -/
def get_expenses (q : Option String) (category_id user_id : Option Nat)
    (start_date end_date : Option CalDate) (db : DB) : Except ApiError (List Expense) :=
  let query := db.expenses
  let query := if strTruthy q then query.filter (fun e => ilikeContains e.description (q.getD "")) else query
  let query := if natTruthy category_id then query.filter (fun e => e.category_id == category_id) else query
  let query := if natTruthy user_id then query.filter (fun e => e.user_id == user_id.getD 0) else query
  let query := match start_date with
    | none => query
    | some d => query.filter (fun e => CalDate.le d e.expense_date)
  let query := match end_date with
    | none => query
    | some d => query.filter (fun e => CalDate.le e.expense_date d)
  if strTruthy q && query.isEmpty then .error (.notFound "No expense found with that description")
  else .ok query

/-- `POST /expenses` handler body: verify the user, verify a truthy
`category_id`, resolve `tag_ids` (404 unless the number of matching tag
rows equals the length of the supplied list), then insert the expense row
and its association rows.  The 404 for tags is raised before `db.add`, so
nothing is written on that path. -/
def create_expense (e : ExpenseCreateSchema) (user_id : Nat) (db : DB) :
    Except ApiError (Expense × DB) :=
  if (db.users.find? (fun u => u.id == user_id)).isNone then
    .error (.notFound "User not found")
  else if natTruthy e.category_id &&
      (db.categories.find? (fun c => some c.id == e.category_id)).isNone then
    .error (.notFound "Category not found")
  else
    let tag_ids := e.tag_ids.getD []
    let row : Expense := ⟨db.nextExpenseId, user_id, e.category_id, e.description,
                          e.amount.quant2, e.expense_date, e.receipt_image⟩
    if tag_ids.isEmpty then
      .ok (row, { db with expenses := db.expenses ++ [row],
                          nextExpenseId := db.nextExpenseId + 1 })
    else
      let tags := db.tags.filter (fun t => tag_ids.contains t.id)
      if tags.length ≠ tag_ids.length then
        .error (.notFound "One or more tags not found")
      else
        .ok (row, { db with expenses := db.expenses ++ [row],
                            expense_tags := db.expense_tags ++ tags.map (fun t => ⟨row.id, t.id⟩),
                            nextExpenseId := db.nextExpenseId + 1 })

/-- `PUT /expenses/{expense_id}`: 404 if absent; merge the present payload
fields onto the row (`category_id` is merged with no existence check); a
present `tag_ids` is re-resolved with a 404 when any id is missing, and on
success replaces the expense's association rows. -/
def update_expense (p : ExpenseUpdateSchema) (expense_id : Nat) (db : DB) :
    Except ApiError (Expense × DB) :=
  match db.expenses.find? (fun x => x.id == expense_id) with
  | none => .error (.notFound "Expense not found")
  | some e =>
    let e1 : Expense := { e with
      description := p.description.getD e.description,
      amount := (p.amount.map Dec.quant2).getD e.amount,
      category_id := p.category_id.getD e.category_id,
      expense_date := p.expense_date.getD e.expense_date,
      receipt_image := match p.receipt_image with
        | none => e.receipt_image
        | some r => some r }
    match p.tag_ids with
    | none =>
      .ok (e1, { db with expenses := db.expenses.map (fun x => if x.id == expense_id then e1 else x) })
    | some l =>
      let tags := db.tags.filter (fun t => l.contains t.id)
      if tags.length ≠ l.length then .error (.notFound "One or more tags not found")
      else
        .ok (e1, { db with
          expenses := db.expenses.map (fun x => if x.id == expense_id then e1 else x),
          expense_tags := db.expense_tags.filter (fun a => a.expense_id ≠ expense_id)
                            ++ tags.map (fun t => ⟨expense_id, t.id⟩) })

/-- `POST /budgets` handler body: verify the user, verify a truthy
`category_id`, insert. -/
def create_budget (b : BudgetCreateSchema) (user_id : Nat) (db : DB) :
    Except ApiError (Budget × DB) :=
  if (db.users.find? (fun u => u.id == user_id)).isNone then
    .error (.notFound "User not found")
  else if natTruthy b.category_id &&
      (db.categories.find? (fun c => some c.id == b.category_id)).isNone then
    .error (.notFound "Category not found")
  else
    let row : Budget := ⟨db.nextBudgetId, user_id, b.category_id, b.amount.quant2,
                         b.period, b.start_date⟩
    .ok (row, { db with budgets := db.budgets ++ [row], nextBudgetId := db.nextBudgetId + 1 })

/-- `PUT /budgets/{budget_id}`: 404 if absent; merge the present payload
fields onto the row.  No foreign-key check of any kind is performed. -/
def update_budget (p : BudgetUpdateSchema) (budget_id : Nat) (db : DB) :
    Except ApiError (Budget × DB) :=
  match db.budgets.find? (fun x => x.id == budget_id) with
  | none => .error (.notFound "Budget not found")
  | some b =>
    let b1 : Budget := { b with
      category_id := p.category_id.getD b.category_id,
      amount := (p.amount.map Dec.quant2).getD b.amount,
      period := p.period.getD b.period,
      start_date := p.start_date.getD b.start_date }
    .ok (b1, { db with budgets := db.budgets.map (fun x => if x.id == budget_id then b1 else x) })

/-- `GET /users`: optional case-insensitive username search; always returns
the (possibly empty) collection — no 404 branch exists. -/
def get_users (q : Option String) (db : DB) : Except ApiError (List User) :=
  let query := db.users
  let query := if strTruthy q then query.filter (fun u => ilikeContains u.username (q.getD "")) else query
  .ok query

/-- `POST /users` handler body: username then email uniqueness pre-checks,
then insert (the password is stored as given). -/
def create_user (u : UserCreateSchema) (db : DB) : Except ApiError (User × DB) :=
  if (db.users.find? (fun x => x.username == u.username)).isSome then
    .error (.badRequest "Username already exists")
  else if (db.users.find? (fun x => x.email == u.email)).isSome then
    .error (.badRequest "Email already exists")
  else
    let row : User := ⟨db.nextUserId, u.username, u.email, u.password, true⟩
    .ok (row, { db with users := db.users ++ [row], nextUserId := db.nextUserId + 1 })

-- ==================== Full request pipelines ====================

/-- Lifts a pydantic validation result into the handler error type. -/
def runValidated (v : Except String α) (k : α → Except ApiError β) : Except ApiError β :=
  match v with
  | .error m => .error (.validation m)
  | .ok a => k a

/-- `POST /categories` including schema validation. -/
def POST_categories (raw : CategoryCreateSchema) (db : DB) : Except ApiError (Category × DB) :=
  runValidated (validateCategoryCreate raw) (fun c => create_category c db)

/-- `POST /tags` including schema validation. -/
def POST_tags (raw : TagCreateSchema) (db : DB) : Except ApiError (Tag × DB) :=
  runValidated (validateTagCreate raw) (fun t => create_tag t db)

/-- `POST /users` including schema validation. -/
def POST_users (raw : UserCreateSchema) (db : DB) : Except ApiError (User × DB) :=
  runValidated (validateUserCreate raw) (fun u => create_user u db)

/-- `POST /expenses` including schema validation. -/
def POST_expenses (raw : ExpenseCreateSchema) (user_id : Nat) (db : DB) :
    Except ApiError (Expense × DB) :=
  runValidated (validateExpenseCreate raw) (fun e => create_expense e user_id db)

/-- `PUT /expenses/{expense_id}` including schema validation. -/
def PUT_expenses (raw : ExpenseUpdateSchema) (expense_id : Nat) (db : DB) :
    Except ApiError (Expense × DB) :=
  runValidated (validateExpenseUpdate raw) (fun p => update_expense p expense_id db)

/-- `POST /budgets` including schema validation. -/
def POST_budgets (raw : BudgetCreateSchema) (user_id : Nat) (db : DB) :
    Except ApiError (Budget × DB) :=
  runValidated (validateBudgetCreate raw) (fun b => create_budget b user_id db)

/-- `PUT /budgets/{budget_id}` including schema validation. -/
def PUT_budgets (raw : BudgetUpdateSchema) (budget_id : Nat) (db : DB) :
    Except ApiError (Budget × DB) :=
  runValidated (validateBudgetUpdate raw) (fun p => update_budget p budget_id db)

-- ==================== Helper lemmas ====================

/-- A `find?` on a list that semantically contains a match returns some
row. -/
theorem find?_isSome_of_exists {α : Type} (p : α → Bool) (l : List α)
    (h : ∃ x ∈ l, p x = true) : ∃ a, l.find? p = some a :=
  Option.isSome_iff_exists.mp (List.find?_isSome.mpr h)

/-- `List.contains` agrees with membership on `Nat`. -/
theorem contains_eq_decide_mem (l : List Nat) (a : Nat) :
    l.contains a = decide (a ∈ l) := by
  by_cases h : a ∈ l <;> simp [h]

-- ==================== C1 ====================

/-- Store with one user, one category, two expenses (one in the category),
two budgets (one in the category). -/
def dbC1 : DB :=
  { users := [⟨1, "alice", "alice@mail.com", "password123", true⟩],
    categories := [⟨1, "Food", none, none, none⟩],
    tags := [],
    expenses := [⟨1, 1, some 1, "Lunch", ⟨1550, 2⟩, ⟨2026, 1, 6⟩, none⟩,
                 ⟨2, 1, none, "Taxi", ⟨900, 2⟩, ⟨2026, 1, 7⟩, none⟩],
    expense_tags := [],
    budgets := [⟨1, 1, some 1, ⟨50000, 2⟩, "monthly", ⟨2026, 1, 1⟩⟩,
                ⟨2, 1, none, ⟨90000, 2⟩, "yearly", ⟨2026, 1, 1⟩⟩],
    nextUserId := 2, nextCategoryId := 2, nextTagId := 1,
    nextExpenseId := 3, nextBudgetId := 3 }

/-- C1 (code bug): the claim — matching `models.py`'s own
`ondelete='CASCADE'` declaration on `budgets.category_id` — says every
budget referencing the deleted category is cascade-deleted, but evaluating
`delete_category` at a store where budget 1 references category 1 shows the
budget row surviving with its reference nulled: the plain `Category.budgets`
relationship makes the ORM null `category_id` before the DELETE, so the
declared cascade never fires.  Expense references are nulled as the claim
says; all other rows are untouched. -/
theorem delete_category_budget_survives_nulled :
    (∃ b ∈ dbC1.budgets, b.id = 1 ∧ b.category_id = some 1) ∧
    delete_category 1 dbC1
      = .ok ("Category removed successfully",
        { dbC1 with
          categories := [],
          expenses := [⟨1, 1, none, "Lunch", ⟨1550, 2⟩, ⟨2026, 1, 6⟩, none⟩,
                       ⟨2, 1, none, "Taxi", ⟨900, 2⟩, ⟨2026, 1, 7⟩, none⟩],
          budgets := [⟨1, 1, none, ⟨50000, 2⟩, "monthly", ⟨2026, 1, 1⟩⟩,
                      ⟨2, 1, none, ⟨90000, 2⟩, "yearly", ⟨2026, 1, 1⟩⟩] }) :=
  ⟨by decide, rfl⟩

-- ==================== C2 ====================

/-- C2 counterexample: the tag and user list operations accept a search
string, yet with a non-empty search matching zero rows they return the
empty collection with no error — `get_tags` and `get_users` have no
not-found branch, contradicting the claim that every searchable list
operation reports not-found on an empty search result. -/
theorem get_tags_users_search_empty_ok_counterexample :
    get_tags (some "x") DB.empty = .ok [] ∧ get_users (some "x") DB.empty = .ok [] :=
  ⟨rfl, rfl⟩

/-- C2 amended: with a non-empty search string matching zero rows, the
category and expense list operations report not-found, while the tag and
user list operations return the (possibly empty) filtered collection with
no error; without a search string every list operation returns the full
collection with no error. -/
theorem search_notfound_only_for_categories_and_expenses
    (db : DB) (s : String) (hs : s ≠ "") :
    (db.categories.filter (fun c => ilikeContains c.name s) = [] →
      get_categories (some s) db = .error (.notFound "No category found")) ∧
    (db.expenses.filter (fun e => ilikeContains e.description s) = [] →
      get_expenses (some s) none none none none db
        = .error (.notFound "No expense found with that description")) ∧
    get_tags (some s) db = .ok (db.tags.filter (fun t => ilikeContains t.name s)) ∧
    get_users (some s) db = .ok (db.users.filter (fun u => ilikeContains u.username s)) ∧
    get_categories none db = .ok db.categories ∧
    get_tags none db = .ok db.tags ∧
    get_users none db = .ok db.users ∧
    get_expenses none none none none none db = .ok db.expenses := by
  have hq : strTruthy (some s) = true := by simp [strTruthy, hs]
  refine ⟨?_, ?_, ?_, ?_, rfl, rfl, rfl, rfl⟩
  · intro hempty
    simp [get_categories, hq, hempty]
  · intro hempty
    simp [get_expenses, hq, natTruthy, hempty]
  · simp [get_tags, hq]
  · simp [get_users, hq]

/-- Witness for C2 at a concrete input. -/
theorem search_notfound_only_witness :
    (DB.empty.categories.filter (fun c => ilikeContains c.name "x") = [] →
      get_categories (some "x") DB.empty = .error (.notFound "No category found")) ∧
    (DB.empty.expenses.filter (fun e => ilikeContains e.description "x") = [] →
      get_expenses (some "x") none none none none DB.empty
        = .error (.notFound "No expense found with that description")) ∧
    get_tags (some "x") DB.empty = .ok (DB.empty.tags.filter (fun t => ilikeContains t.name "x")) ∧
    get_users (some "x") DB.empty
      = .ok (DB.empty.users.filter (fun u => ilikeContains u.username "x")) ∧
    get_categories none DB.empty = .ok DB.empty.categories ∧
    get_tags none DB.empty = .ok DB.empty.tags ∧
    get_users none DB.empty = .ok DB.empty.users ∧
    get_expenses none none none none none DB.empty = .ok DB.empty.expenses :=
  search_notfound_only_for_categories_and_expenses DB.empty "x" (by decide)

-- ==================== C9 ====================

/-- The store after creating the category `"Food"` in an empty store. -/
def dbFood : DB :=
  { DB.empty with categories := [⟨1, "Food", none, none, none⟩], nextCategoryId := 2 }

/-- C9: creating a category, tag, or user whose unique field (category
name, tag name, username, or email) equals that of a stored row fails with
a conflict error (the pre-check fires before any insert), while a creation
with a fresh value succeeds and inserts exactly one row; in particular
creating `"Food"` twice on an empty store yields success then a
conflict. -/
theorem unique_name_precheck_conflict :
    (∀ (c : CategoryCreateSchema) (db : DB), (∃ x ∈ db.categories, x.name = c.name) →
       create_category c db = .error (.badRequest "Category name already exists")) ∧
    (∀ (c : CategoryCreateSchema) (db : DB), (¬ ∃ x ∈ db.categories, x.name = c.name) →
       create_category c db = .ok (⟨db.nextCategoryId, c.name, c.description, c.icon, c.color⟩,
         { db with
           categories := db.categories ++ [⟨db.nextCategoryId, c.name, c.description, c.icon, c.color⟩],
           nextCategoryId := db.nextCategoryId + 1 })) ∧
    (∀ (t : TagCreateSchema) (db : DB), (∃ x ∈ db.tags, x.name = t.name) →
       create_tag t db = .error (.badRequest "Tag name already exists")) ∧
    (∀ (t : TagCreateSchema) (db : DB), (¬ ∃ x ∈ db.tags, x.name = t.name) →
       create_tag t db = .ok (⟨db.nextTagId, t.name, t.color⟩,
         { db with tags := db.tags ++ [⟨db.nextTagId, t.name, t.color⟩],
                   nextTagId := db.nextTagId + 1 })) ∧
    (∀ (u : UserCreateSchema) (db : DB), (∃ x ∈ db.users, x.username = u.username) →
       create_user u db = .error (.badRequest "Username already exists")) ∧
    (∀ (u : UserCreateSchema) (db : DB), (¬ ∃ x ∈ db.users, x.username = u.username) →
       (∃ x ∈ db.users, x.email = u.email) →
       create_user u db = .error (.badRequest "Email already exists")) ∧
    (∀ (u : UserCreateSchema) (db : DB), (¬ ∃ x ∈ db.users, x.username = u.username) →
       (¬ ∃ x ∈ db.users, x.email = u.email) →
       create_user u db = .ok (⟨db.nextUserId, u.username, u.email, u.password, true⟩,
         { db with users := db.users ++ [⟨db.nextUserId, u.username, u.email, u.password, true⟩],
                   nextUserId := db.nextUserId + 1 })) ∧
    (POST_categories ⟨"Food", none, none, none⟩ DB.empty
       = .ok (⟨1, "Food", none, none, none⟩, dbFood) ∧
     POST_categories ⟨"Food", none, none, none⟩ dbFood
       = .error (.badRequest "Category name already exists")) := by
  refine ⟨?_, ?_, ?_, ?_, ?_, ?_, ?_, rfl, rfl⟩
  · intro c db h
    obtain ⟨x, hx, hname⟩ := h
    obtain ⟨x0, hfind⟩ := find?_isSome_of_exists (fun x => x.name == c.name) db.categories
      ⟨x, hx, by simp [hname]⟩
    simp [create_category, hfind]
  · intro c db h
    have hnone : db.categories.find? (fun x => x.name == c.name) = none := by
      rw [List.find?_eq_none]
      intro x hx
      simp only [beq_iff_eq, ne_eq]
      exact fun heq => h ⟨x, hx, heq⟩
    simp [create_category, hnone]
  · intro t db h
    obtain ⟨x, hx, hname⟩ := h
    obtain ⟨x0, hfind⟩ := find?_isSome_of_exists (fun x => x.name == t.name) db.tags
      ⟨x, hx, by simp [hname]⟩
    simp [create_tag, hfind]
  · intro t db h
    have hnone : db.tags.find? (fun x => x.name == t.name) = none := by
      rw [List.find?_eq_none]
      intro x hx
      simp only [beq_iff_eq, ne_eq]
      exact fun heq => h ⟨x, hx, heq⟩
    simp [create_tag, hnone]
  · intro u db h
    obtain ⟨x, hx, hname⟩ := h
    obtain ⟨x0, hfind⟩ := find?_isSome_of_exists (fun x => x.username == u.username) db.users
      ⟨x, hx, by simp [hname]⟩
    simp [create_user, hfind]
  · intro u db hu he
    have hnone : db.users.find? (fun x => x.username == u.username) = none := by
      rw [List.find?_eq_none]
      intro x hx
      simp only [beq_iff_eq, ne_eq]
      exact fun heq => hu ⟨x, hx, heq⟩
    obtain ⟨x, hx, hmail⟩ := he
    obtain ⟨x0, hfind⟩ := find?_isSome_of_exists (fun x => x.email == u.email) db.users
      ⟨x, hx, by simp [hmail]⟩
    simp [create_user, hnone, hfind]
  · intro u db hu he
    have hnone1 : db.users.find? (fun x => x.username == u.username) = none := by
      rw [List.find?_eq_none]
      intro x hx
      simp only [beq_iff_eq, ne_eq]
      exact fun heq => hu ⟨x, hx, heq⟩
    have hnone2 : db.users.find? (fun x => x.email == u.email) = none := by
      rw [List.find?_eq_none]
      intro x hx
      simp only [beq_iff_eq, ne_eq]
      exact fun heq => he ⟨x, hx, heq⟩
    simp [create_user, hnone1, hnone2]

/-- Witness for C9 at concrete stores: a duplicate category name conflicts,
and a fresh tag and user insert. -/
theorem unique_name_precheck_conflict_witness :
    create_category ⟨"Food", none, none, none⟩ dbFood
      = .error (.badRequest "Category name already exists") ∧
    create_tag ⟨"travel", none⟩ DB.empty
      = .ok (⟨1, "travel", none⟩,
             { DB.empty with tags := DB.empty.tags ++ [⟨1, "travel", none⟩],
                             nextTagId := 2 }) ∧
    create_user ⟨"alice", "alice@mail.com", "password123"⟩ dbC1
      = .error (.badRequest "Username already exists") :=
  ⟨unique_name_precheck_conflict.1 ⟨"Food", none, none, none⟩ dbFood (by decide),
   unique_name_precheck_conflict.2.2.2.1 ⟨"travel", none⟩ DB.empty (by decide),
   unique_name_precheck_conflict.2.2.2.2.1 ⟨"alice", "alice@mail.com", "password123"⟩ dbC1
     (by decide)⟩

-- ==================== C10 ====================

/-- A short password makes `validateUserCreate` fail. -/
theorem validateUserCreate_err_of_short_password (u : UserCreateSchema)
    (h : u.password.length < 8) : ∃ m, validateUserCreate u = .error m := by
  unfold validateUserCreate
  split_ifs <;> exact ⟨_, rfl⟩

/-- C10: user creation rejects every payload whose password has fewer than
8 characters with a validation error; when the other fields are in range
the error is specifically the password minimum-length rule. -/
theorem user_password_min_length (u : UserCreateSchema) (db : DB)
    (h : u.password.length < 8) :
    (∃ m, POST_users u db = .error (.validation m)) ∧
    (3 ≤ u.username.length → u.username.length ≤ 50 → u.email.length ≤ 100 →
      POST_users u db = .error (.validation "password: min_length 8")) := by
  constructor
  · obtain ⟨m, hm⟩ := validateUserCreate_err_of_short_password u h
    exact ⟨m, by simp [POST_users, runValidated, hm]⟩
  · intro hn1 hn2 he
    have hv : validateUserCreate u = .error "password: min_length 8" := by
      unfold validateUserCreate
      split_ifs with h1 h2 h3
      · exact absurd h1 (by omega)
      · exact absurd h2 (by omega)
      · exact absurd h3 (by omega)
      · rfl
    simp [POST_users, runValidated, hv]

/-- Witness for C10 at a concrete payload. -/
theorem user_password_min_length_witness :
    (∃ m, POST_users ⟨"bob", "bob@mail.com", "short"⟩ DB.empty = .error (.validation m)) ∧
    (3 ≤ ("bob" : String).length → ("bob" : String).length ≤ 50 →
     ("bob@mail.com" : String).length ≤ 100 →
      POST_users ⟨"bob", "bob@mail.com", "short"⟩ DB.empty
        = .error (.validation "password: min_length 8")) :=
  user_password_min_length ⟨"bob", "bob@mail.com", "short"⟩ DB.empty (by decide)

-- ==================== C7 ====================

/-- C7: updating a budget with a payload that supplies only `amount`
returns the row with only `amount` changed — `period`, `start_date`,
`category_id` and `user_id` are exactly those of the stored row — and the
store replaces just that row. -/
theorem update_budget_amount_only_frame (db : DB) (b : Budget) (a : Dec)
    (hfind : db.budgets.find? (fun x => x.id == b.id) = some b)
    (hpos : 0 < a.num) (hsc : a.scale ≤ 2) :
    PUT_budgets ⟨none, some a, none, none⟩ b.id db
      = .ok ({ b with amount := a.quant2 },
             { db with budgets := db.budgets.map (fun x =>
                 if x.id == b.id then { b with amount := a.quant2 } else x) }) ∧
    ({ b with amount := a.quant2 } : Budget).period = b.period ∧
    ({ b with amount := a.quant2 } : Budget).start_date = b.start_date ∧
    ({ b with amount := a.quant2 } : Budget).category_id = b.category_id ∧
    ({ b with amount := a.quant2 } : Budget).user_id = b.user_id := by
  have h1 : ¬ (a.num ≤ 0) := by omega
  have h2 : ¬ (2 < a.scale) := by omega
  have hv : validateBudgetUpdate ⟨none, some a, none, none⟩
      = .ok ⟨none, some a, none, none⟩ := by
    simp [validateBudgetUpdate, Option.elim, h1, h2, optLenLe]
  refine ⟨?_, rfl, rfl, rfl, rfl⟩
  simp [PUT_budgets, runValidated, hv, update_budget, hfind]

/-- The budget row used by the C7 witness. -/
def budC7 : Budget := ⟨1, 1, some 1, ⟨50000, 2⟩, "monthly", ⟨2026, 1, 1⟩⟩

/-- Witness for C7 at a concrete store and payload. -/
theorem update_budget_amount_only_frame_witness :
    PUT_budgets ⟨none, some ⟨10000, 2⟩, none, none⟩ budC7.id dbC1
      = .ok ({ budC7 with amount := Dec.quant2 ⟨10000, 2⟩ },
             { dbC1 with budgets := dbC1.budgets.map (fun x =>
                 if x.id == budC7.id then { budC7 with amount := Dec.quant2 ⟨10000, 2⟩ } else x) }) ∧
    ({ budC7 with amount := Dec.quant2 ⟨10000, 2⟩ } : Budget).period = budC7.period ∧
    ({ budC7 with amount := Dec.quant2 ⟨10000, 2⟩ } : Budget).start_date = budC7.start_date ∧
    ({ budC7 with amount := Dec.quant2 ⟨10000, 2⟩ } : Budget).category_id = budC7.category_id ∧
    ({ budC7 with amount := Dec.quant2 ⟨10000, 2⟩ } : Budget).user_id = budC7.user_id :=
  update_budget_amount_only_frame dbC1 budC7 ⟨10000, 2⟩ (by decide) (by decide) (by decide)

-- ==================== C4 ====================

/-- Modelled from the spec's words, for comparison only: a description
restricted to alphabetic characters, spaces, and hyphens. -/
def specDescriptionCharset (s : String) : Bool :=
  s.data.all (fun c => c.isAlpha || c == ' ' || c == '-')

/-- `validateExpenseCreate` succeeds exactly when the description is at
most 200 characters, the amount is positive with at most 2 decimal places,
and the receipt path is at most 255 characters — and it returns the
payload unchanged.  No character-set condition appears. -/
theorem validateExpenseCreate_eq_ok_iff (e v : ExpenseCreateSchema) :
    validateExpenseCreate e = .ok v ↔
      (v = e ∧ e.description.length ≤ 200 ∧ 0 < e.amount.num ∧ e.amount.scale ≤ 2 ∧
       optLenLe e.receipt_image 255 = true) := by
  unfold validateExpenseCreate validateExpenseBase
  split_ifs with h1 h2 h3 h4 <;>
    constructor <;> intro hx
  · cases hx
  · omega
  · cases hx
  · omega
  · cases hx
  · omega
  · cases hx
  · simp_all
  · cases hx
    exact ⟨rfl, by omega, by omega, by omega, by simpa using h4⟩
  · obtain ⟨hv, _⟩ := hx
    simp [hv]

/-- C4 counterexample: a description containing digits and punctuation —
outside the alphabetic/space/hyphen set — passes expense validation
unchanged, so no character-set restriction is enforced. -/
theorem expense_description_charset_counterexample :
    specDescriptionCharset "Taxi 2026 #42!" = false ∧
    validateExpenseCreate ⟨"Taxi 2026 #42!", ⟨1299, 2⟩, none, ⟨2026, 1, 6⟩, none, none⟩
      = .ok ⟨"Taxi 2026 #42!", ⟨1299, 2⟩, none, ⟨2026, 1, 6⟩, none, none⟩ :=
  ⟨by decide, rfl⟩

/-- C4 amended: expense description validation enforces only the
200-character maximum (plus the amount and receipt-path rules); payloads
whose description contains characters outside alphabetic/space/hyphen are
accepted, since acceptance depends on no character-set condition. -/
theorem expense_description_only_length_checked (e : ExpenseCreateSchema) :
    validateExpenseCreate e = .ok e ↔
      (e.description.length ≤ 200 ∧ 0 < e.amount.num ∧ e.amount.scale ≤ 2 ∧
       optLenLe e.receipt_image 255 = true) := by
  rw [validateExpenseCreate_eq_ok_iff]
  simp

-- ==================== C6 ====================

/-- Quantizing to scale 2 is value-preserving when the input has at most 2
fractional digits. -/
theorem Dec.val_quant2 (d : Dec) (h : d.scale ≤ 2) : d.quant2.val = d.val := by
  unfold Dec.val Dec.quant2
  have h2 : 2 - d.scale + d.scale = 2 := by omega
  have hpow : (10 : ℚ) ^ (2 : Nat) = 10 ^ (2 - d.scale) * 10 ^ d.scale := by
    rw [← pow_add, h2]
  push_cast
  rw [mul_comm (d.num : ℚ) _, hpow,
    mul_div_mul_left _ _ (pow_ne_zero _ (by norm_num : (10 : ℚ) ≠ 0))]

/-- A successful `create_expense` returns the freshly built row, whose
amount is the payload amount stored at scale 2, appended to the store. -/
theorem create_expense_ok_shape (e : ExpenseCreateSchema) (uid : Nat) (db : DB)
    (row : Expense) (db2 : DB) (h : create_expense e uid db = .ok (row, db2)) :
    row = ⟨db.nextExpenseId, uid, e.category_id, e.description, e.amount.quant2,
           e.expense_date, e.receipt_image⟩ ∧
    db2.expenses = db.expenses ++ [row] := by
  simp only [create_expense] at h
  split_ifs at h
  all_goals cases h
  all_goals exact ⟨rfl, rfl⟩

/-- A successful `create_budget` returns the freshly built row, whose
amount is the payload amount stored at scale 2, appended to the store. -/
theorem create_budget_ok_shape (b : BudgetCreateSchema) (uid : Nat) (db : DB)
    (row : Budget) (db2 : DB) (h : create_budget b uid db = .ok (row, db2)) :
    row = ⟨db.nextBudgetId, uid, b.category_id, b.amount.quant2, b.period, b.start_date⟩ ∧
    db2.budgets = db.budgets ++ [row] := by
  simp only [create_budget] at h
  split_ifs at h
  all_goals cases h
  all_goals exact ⟨rfl, rfl⟩

/-- `validateBudgetCreate` succeeds exactly when the amount is positive
with at most 2 decimal places and the period, once lowercased, is in the
fixed enumeration; the result carries the lowercased period. -/
theorem validateBudgetCreate_eq_ok_iff (b v : BudgetCreateSchema) :
    validateBudgetCreate b = .ok v ↔
      (v = { b with period := strLower b.period } ∧ 0 < b.amount.num ∧
       b.amount.scale ≤ 2 ∧ b.period.length ≤ 20 ∧ strLower b.period ∈ allowed_periods) := by
  unfold validateBudgetCreate
  split_ifs with h1 h2 h3 h4 <;>
    constructor <;> intro hx
  · cases hx
  · omega
  · cases hx
  · omega
  · cases hx
  · omega
  · cases hx
    exact ⟨rfl, by omega, by omega, by omega, h4⟩
  · obtain ⟨hv, _⟩ := hx
    simp [hv]
  · cases hx
  · exact absurd hx.2.2.2.2 h4

/-- A present non-positive amount makes `validateExpenseUpdate` fail. -/
theorem validateExpenseUpdate_err_nonpos (raw : ExpenseUpdateSchema) (a : Dec)
    (ha : raw.amount = some a) (h : a.num ≤ 0) :
    ∃ m, validateExpenseUpdate raw = .error m := by
  unfold validateExpenseUpdate
  split_ifs with h1 h2 h3 h4 <;>
    first
      | exact ⟨_, rfl⟩
      | exact absurd (by simp [ha, h]) h2

/-- A present non-positive amount makes `validateBudgetUpdate` fail. -/
theorem validateBudgetUpdate_err_nonpos (raw : BudgetUpdateSchema) (a : Dec)
    (ha : raw.amount = some a) (h : a.num ≤ 0) :
    ∃ m, validateBudgetUpdate raw = .error m := by
  unfold validateBudgetUpdate
  split_ifs with h1 h2 h3 <;>
    first
      | exact ⟨_, rfl⟩
      | exact absurd (by simp [ha, h]) h1

/-- C6: every non-positive amount in an expense or budget create or update
payload is rejected at validation time, and every successful creation
returns an entity whose amount has exactly 2 fractional digits and denotes
the same value as the payload amount. -/
theorem amount_positive_and_two_decimals :
    (∀ (raw : ExpenseCreateSchema) (uid : Nat) (db : DB),
      (raw.amount.num ≤ 0 → ∃ m, POST_expenses raw uid db = .error (.validation m)) ∧
      (∀ row db2, POST_expenses raw uid db = .ok (row, db2) →
        row.amount.scale = 2 ∧ row.amount.val = raw.amount.val)) ∧
    (∀ (raw : BudgetCreateSchema) (uid : Nat) (db : DB),
      (raw.amount.num ≤ 0 → ∃ m, POST_budgets raw uid db = .error (.validation m)) ∧
      (∀ row db2, POST_budgets raw uid db = .ok (row, db2) →
        row.amount.scale = 2 ∧ row.amount.val = raw.amount.val)) ∧
    (∀ (raw : ExpenseUpdateSchema) (eid : Nat) (db : DB) (a : Dec),
      raw.amount = some a → a.num ≤ 0 →
      ∃ m, PUT_expenses raw eid db = .error (.validation m)) ∧
    (∀ (raw : BudgetUpdateSchema) (bid : Nat) (db : DB) (a : Dec),
      raw.amount = some a → a.num ≤ 0 →
      ∃ m, PUT_budgets raw bid db = .error (.validation m)) := by
  refine ⟨?_, ?_, ?_, ?_⟩
  · intro raw uid db
    constructor
    · intro hneg
      cases hv : validateExpenseCreate raw with
      | error m => exact ⟨m, by simp [POST_expenses, runValidated, hv]⟩
      | ok v =>
        have := (validateExpenseCreate_eq_ok_iff raw v).mp hv
        omega
    · intro row db2 hok
      cases hv : validateExpenseCreate raw with
      | error m => simp [POST_expenses, runValidated, hv] at hok
      | ok v =>
        obtain ⟨hveq, _, _, hsc, _⟩ := (validateExpenseCreate_eq_ok_iff raw v).mp hv
        simp only [POST_expenses, runValidated, hv] at hok
        rw [hveq] at hok
        obtain ⟨hrow, _⟩ := create_expense_ok_shape raw uid db row db2 hok
        subst hrow
        exact ⟨rfl, Dec.val_quant2 raw.amount hsc⟩
  · intro raw uid db
    constructor
    · intro hneg
      cases hv : validateBudgetCreate raw with
      | error m => exact ⟨m, by simp [POST_budgets, runValidated, hv]⟩
      | ok v =>
        have := (validateBudgetCreate_eq_ok_iff raw v).mp hv
        omega
    · intro row db2 hok
      cases hv : validateBudgetCreate raw with
      | error m => simp [POST_budgets, runValidated, hv] at hok
      | ok v =>
        obtain ⟨hveq, _, hsc, _, _⟩ := (validateBudgetCreate_eq_ok_iff raw v).mp hv
        simp only [POST_budgets, runValidated, hv] at hok
        obtain ⟨hrow, _⟩ := create_budget_ok_shape v uid db row db2 hok
        subst hrow
        have hamt : v.amount = raw.amount := by rw [hveq]
        rw [hamt]
        exact ⟨rfl, Dec.val_quant2 raw.amount hsc⟩
  · intro raw eid db a ha h
    obtain ⟨m, hm⟩ := validateExpenseUpdate_err_nonpos raw a ha h
    exact ⟨m, by simp [PUT_expenses, runValidated, hm]⟩
  · intro raw bid db a ha h
    obtain ⟨m, hm⟩ := validateBudgetUpdate_err_nonpos raw a ha h
    exact ⟨m, by simp [PUT_budgets, runValidated, hm]⟩

/-- Payload for the C6 witness: amount `12.5`, one fractional digit. -/
def rawC6 : ExpenseCreateSchema := ⟨"Lunch", ⟨125, 1⟩, none, ⟨2026, 1, 6⟩, none, none⟩

/-- The row created from `rawC6` in `dbC1`: amount stored as `12.50`. -/
def rowC6 : Expense := ⟨3, 1, none, "Lunch", ⟨1250, 2⟩, ⟨2026, 1, 6⟩, none⟩

/-- The store after creating `rawC6` in `dbC1`. -/
def dbC6 : DB := { dbC1 with expenses := dbC1.expenses ++ [rowC6], nextExpenseId := 4 }

/-- Witness for C6 at concrete payloads. -/
theorem amount_positive_and_two_decimals_witness :
    (∃ m, POST_expenses ⟨"Lunch", ⟨-500, 2⟩, none, ⟨2026, 1, 6⟩, none, none⟩ 1 dbC1
      = .error (.validation m)) ∧
    (rowC6.amount.scale = 2 ∧ rowC6.amount.val = rawC6.amount.val) ∧
    (∃ m, PUT_budgets ⟨none, some ⟨0, 0⟩, none, none⟩ 1 dbC1 = .error (.validation m)) :=
  ⟨(amount_positive_and_two_decimals.1 _ 1 dbC1).1 (by decide),
   (amount_positive_and_two_decimals.1 rawC6 1 dbC1).2 rowC6 dbC6 rfl,
   amount_positive_and_two_decimals.2.2.2 ⟨none, some ⟨0, 0⟩, none, none⟩ 1 dbC1 ⟨0, 0⟩
     rfl (by decide)⟩

-- ==================== C3 ====================

/-- Filtering tag rows by id membership has the same length as filtering
the projected id list. -/
theorem filter_by_id_length (tags : List Tag) (l : List Nat) :
    (tags.filter (fun t => l.contains t.id)).length
      = ((tags.map Tag.id).filter (fun i => l.contains i)).length := by
  induction tags with
  | nil => rfl
  | cons t ts ih =>
    by_cases h : t.id ∈ l <;> simp [List.filter_cons, h] <;> simpa using ih

/-- Over a duplicate-free id list, filtering by membership in `l` keeps as
many elements as `l` has exactly when `l` is duplicate-free and every
element of `l` occurs. -/
theorem ids_filter_len_iff (ids l : List Nat) (hnd : ids.Nodup) :
    (ids.filter (fun i => l.contains i)).length = l.length ↔
      (l.Nodup ∧ ∀ i ∈ l, i ∈ ids) := by
  have hfil : ids.filter (fun i => l.contains i) = ids.filter (fun i => decide (i ∈ l)) := by
    apply List.filter_congr
    intro i _
    exact contains_eq_decide_mem l i
  rw [hfil]
  have hfnd : (ids.filter (fun i => decide (i ∈ l))).Nodup := hnd.filter _
  have hsub : ∀ i ∈ ids.filter (fun i => decide (i ∈ l)), i ∈ l := by
    intro i hi
    simpa using (List.mem_filter.mp hi).2
  have hsubids : ∀ i ∈ ids.filter (fun i => decide (i ∈ l)), i ∈ ids :=
    fun i hi => (List.mem_filter.mp hi).1
  constructor
  · intro hlen
    have hcardf : (ids.filter (fun i => decide (i ∈ l))).toFinset.card
        = (ids.filter (fun i => decide (i ∈ l))).length := List.toFinset_card_of_nodup hfnd
    have hsubset : (ids.filter (fun i => decide (i ∈ l))).toFinset ⊆ l.toFinset := by
      intro i hi
      rw [List.mem_toFinset] at hi ⊢
      exact hsub i hi
    have hcardl : l.toFinset.card = l.dedup.length := List.card_toFinset l
    have hled : l.dedup.length ≤ l.length := (List.dedup_sublist l).length_le
    have hcardle : (ids.filter (fun i => decide (i ∈ l))).toFinset.card ≤ l.toFinset.card :=
      Finset.card_le_card hsubset
    have hnodupl : l.Nodup := by
      rw [← List.dedup_eq_self]
      exact (List.dedup_sublist l).eq_of_length (by omega)
    refine ⟨hnodupl, ?_⟩
    have hcards : l.toFinset.card ≤ (ids.filter (fun i => decide (i ∈ l))).toFinset.card := by
      omega
    have hfeq : (ids.filter (fun i => decide (i ∈ l))).toFinset = l.toFinset :=
      Finset.eq_of_subset_of_card_le hsubset hcards
    intro i hil
    have hmem : i ∈ (ids.filter (fun i => decide (i ∈ l))).toFinset := by
      rw [hfeq, List.mem_toFinset]
      exact hil
    rw [List.mem_toFinset] at hmem
    exact hsubids i hmem
  · rintro ⟨hnodupl, hresolve⟩
    have hfeq : (ids.filter (fun i => decide (i ∈ l))).toFinset = l.toFinset := by
      apply Finset.Subset.antisymm
      · intro i hi
        rw [List.mem_toFinset] at hi ⊢
        exact hsub i hi
      · intro i hi
        rw [List.mem_toFinset] at hi ⊢
        rw [List.mem_filter]
        exact ⟨hresolve i hi, by simpa using hi⟩
    have h1 : (ids.filter (fun i => decide (i ∈ l))).length
        = (ids.filter (fun i => decide (i ∈ l))).toFinset.card :=
      (List.toFinset_card_of_nodup hfnd).symm
    have h2 : l.length = l.toFinset.card := (List.toFinset_card_of_nodup hnodupl).symm
    rw [h1, h2, hfeq]

/-- The `len(tags) == len(tag_ids)` check of `create_expense` holds exactly
when the supplied id list is duplicate-free and fully resolvable, given
that stored tag ids are unique. -/
theorem tags_resolve_iff (tags : List Tag) (l : List Nat)
    (hnd : (tags.map Tag.id).Nodup) :
    (tags.filter (fun t => l.contains t.id)).length = l.length ↔
      (l.Nodup ∧ ∀ i ∈ l, ∃ t ∈ tags, t.id = i) := by
  rw [filter_by_id_length, ids_filter_len_iff _ _ hnd]
  simp [List.mem_map]

/-- Store with one user and one tag. -/
def dbU : DB :=
  { DB.empty with
    users := [⟨1, "alice", "alice@mail.com", "password123", true⟩],
    tags := [⟨1, "food", none⟩],
    nextUserId := 2, nextTagId := 2 }

/-- C3 counterexample: with `tag_ids = [1, 1]` and tag `1` stored, every id
in the list resolves to an existing tag, yet expense creation fails — the
claimed equivalence "succeeds iff every id resolves" is false because the
code compares the count of matching rows with the length of the
(duplicate-carrying) list. -/
theorem create_expense_duplicate_tag_ids_counterexample :
    (∀ i ∈ [1, 1], ∃ t ∈ dbU.tags, t.id = i) ∧
    POST_expenses ⟨"Lunch", ⟨1000, 2⟩, none, ⟨2026, 1, 6⟩, none, some [1, 1]⟩ 1 dbU
      = .error (.notFound "One or more tags not found") :=
  ⟨by decide, rfl⟩

/-- C3 amended: for a payload that supplies `tag_ids = l` (user and any
truthy category resolvable, stored tag ids unique), creation succeeds — 
writing the expense row and exactly the association rows for the matching
tags — precisely when `l` is duplicate-free and every id in `l` resolves
to an existing tag; otherwise it fails with the tag not-found error before
anything is written. -/
theorem create_expense_tags_all_or_nothing
    (e : ExpenseCreateSchema) (uid : Nat) (db : DB) (l : List Nat)
    (htags : e.tag_ids = some l)
    (hnd : (db.tags.map Tag.id).Nodup)
    (huser : ∃ u ∈ db.users, u.id = uid)
    (hcat : natTruthy e.category_id = true → ∃ c ∈ db.categories, some c.id = e.category_id) :
    ((l.Nodup ∧ ∀ i ∈ l, ∃ t ∈ db.tags, t.id = i) →
      ∃ row db2, create_expense e uid db = .ok (row, db2) ∧
        db2.expenses = db.expenses ++ [row] ∧
        db2.expense_tags = db.expense_tags
          ++ (db.tags.filter (fun t => l.contains t.id)).map
               (fun t => (⟨row.id, t.id⟩ : ExpenseTag))) ∧
    (¬(l.Nodup ∧ ∀ i ∈ l, ∃ t ∈ db.tags, t.id = i) →
      create_expense e uid db = .error (.notFound "One or more tags not found")) := by
  obtain ⟨u, hu, huid⟩ := huser
  obtain ⟨u0, hufind⟩ := find?_isSome_of_exists (fun x => x.id == uid) db.users
    ⟨u, hu, by simp [huid]⟩
  have hA : (db.users.find? (fun x => x.id == uid)).isNone = false := by
    rw [hufind]; rfl
  have hB : (natTruthy e.category_id &&
      (db.categories.find? (fun c => some c.id == e.category_id)).isNone) = false := by
    cases hnt : natTruthy e.category_id with
    | false => simp
    | true =>
      obtain ⟨c, hc, hcid⟩ := hcat hnt
      obtain ⟨c0, hcfind⟩ := find?_isSome_of_exists (fun c => some c.id == e.category_id)
        db.categories ⟨c, hc, by simp [hcid]⟩
      rw [hcfind]
      rfl
  constructor
  · rintro ⟨hnodup, hres⟩
    have hlen : (db.tags.filter (fun t => l.contains t.id)).length = l.length :=
      (tags_resolve_iff db.tags l hnd).mpr ⟨hnodup, hres⟩
    rcases l with _ | ⟨i, l2⟩
    · refine ⟨⟨db.nextExpenseId, uid, e.category_id, e.description, e.amount.quant2,
               e.expense_date, e.receipt_image⟩,
              { db with
                expenses := db.expenses ++ [⟨db.nextExpenseId, uid, e.category_id,
                  e.description, e.amount.quant2, e.expense_date, e.receipt_image⟩],
                nextExpenseId := db.nextExpenseId + 1 }, ?_, rfl, ?_⟩
      · simp [create_expense, hA, hB, htags]
      · have hnilfil : db.tags.filter (fun t => ([] : List Nat).contains t.id) = [] := by
          simp [List.contains]
        simp [hnilfil]
    · refine ⟨⟨db.nextExpenseId, uid, e.category_id, e.description, e.amount.quant2,
               e.expense_date, e.receipt_image⟩,
              { db with
                expenses := db.expenses ++ [⟨db.nextExpenseId, uid, e.category_id,
                  e.description, e.amount.quant2, e.expense_date, e.receipt_image⟩],
                expense_tags := db.expense_tags
                  ++ (db.tags.filter (fun t => (i :: l2).contains t.id)).map
                       (fun t => ⟨db.nextExpenseId, t.id⟩),
                nextExpenseId := db.nextExpenseId + 1 }, ?_, rfl, rfl⟩
      simp [create_expense, hA, hB, htags]
      simpa using hlen
  · intro hnot
    rcases l with _ | ⟨i, l2⟩
    · exact absurd ⟨List.nodup_nil, by simp⟩ hnot
    · have hlen : (db.tags.filter (fun t => (i :: l2).contains t.id)).length
          ≠ (i :: l2).length := by
        intro heq
        exact hnot ((tags_resolve_iff db.tags (i :: l2) hnd).mp heq)
      simp [create_expense, hA, hB, htags]
      simpa using hlen

/-- Witness for C3 at a concrete store and payload. -/
theorem create_expense_tags_all_or_nothing_witness :
    ((([1] : List Nat).Nodup ∧ ∀ i ∈ ([1] : List Nat), ∃ t ∈ dbU.tags, t.id = i) →
      ∃ row db2, create_expense ⟨"Lunch", ⟨1000, 2⟩, none, ⟨2026, 1, 6⟩, none, some [1]⟩ 1 dbU
          = .ok (row, db2) ∧
        db2.expenses = dbU.expenses ++ [row] ∧
        db2.expense_tags = dbU.expense_tags
          ++ (dbU.tags.filter (fun t => ([1] : List Nat).contains t.id)).map
               (fun t => (⟨row.id, t.id⟩ : ExpenseTag))) ∧
    (¬(([1] : List Nat).Nodup ∧ ∀ i ∈ ([1] : List Nat), ∃ t ∈ dbU.tags, t.id = i) →
      create_expense ⟨"Lunch", ⟨1000, 2⟩, none, ⟨2026, 1, 6⟩, none, some [1]⟩ 1 dbU
        = .error (.notFound "One or more tags not found")) :=
  create_expense_tags_all_or_nothing ⟨"Lunch", ⟨1000, 2⟩, none, ⟨2026, 1, 6⟩, none, some [1]⟩
    1 dbU [1] rfl (by decide) (by decide) (by decide)

-- ==================== C5 ====================

/-- Store with one user, one tag, one expense and one budget; no
categories. -/
def dbE : DB :=
  { dbU with
    expenses := [⟨1, 1, none, "Lunch", ⟨1000, 2⟩, ⟨2026, 1, 6⟩, none⟩],
    budgets := [⟨1, 1, none, ⟨50000, 2⟩, "monthly", ⟨2026, 1, 1⟩⟩],
    nextExpenseId := 2, nextBudgetId := 2 }

/-- C5 counterexample: updating an expense or a budget with
`category_id = 999`, no category `999` existing, succeeds and stores the
dangling reference — no not-found error is raised, contradicting the claim
that foreign-key fields in update payloads are re-verified. -/
theorem update_unchecked_category_counterexample :
    (¬ ∃ c ∈ dbE.categories, c.id = 999) ∧
    PUT_expenses ⟨none, none, some (some 999), none, none, none⟩ 1 dbE
      = .ok (⟨1, 1, some 999, "Lunch", ⟨1000, 2⟩, ⟨2026, 1, 6⟩, none⟩,
             { dbE with expenses := [⟨1, 1, some 999, "Lunch", ⟨1000, 2⟩, ⟨2026, 1, 6⟩, none⟩] }) ∧
    PUT_budgets ⟨some (some 999), none, none, none⟩ 1 dbE
      = .ok (⟨1, 1, some 999, ⟨50000, 2⟩, "monthly", ⟨2026, 1, 1⟩⟩,
             { dbE with budgets := [⟨1, 1, some 999, ⟨50000, 2⟩, "monthly", ⟨2026, 1, 1⟩⟩] }) :=
  ⟨by decide, rfl, rfl⟩

/-- C5 amended: on update only `tag_ids` is re-verified — a present
`tag_ids` whose resolution count mismatches fails with the tag not-found
error — while a present `category_id` is merged onto the expense or budget
row with no existence check of any kind. -/
theorem update_foreign_key_checks_tags_only :
    (∀ (p : ExpenseUpdateSchema) (db : DB) (eid : Nat) (l : List Nat),
      (∃ x ∈ db.expenses, x.id = eid) → p.tag_ids = some l →
      (db.tags.filter (fun t => l.contains t.id)).length ≠ l.length →
      update_expense p eid db = .error (.notFound "One or more tags not found")) ∧
    (∀ (p : ExpenseUpdateSchema) (db : DB) (e : Expense),
      db.expenses.find? (fun x => x.id == e.id) = some e → p.tag_ids = none →
      ∃ e2 db2, update_expense p e.id db = .ok (e2, db2) ∧
        e2.category_id = p.category_id.getD e.category_id) ∧
    (∀ (p : BudgetUpdateSchema) (db : DB) (b : Budget),
      db.budgets.find? (fun x => x.id == b.id) = some b →
      ∃ b2 db2, update_budget p b.id db = .ok (b2, db2) ∧
        b2.category_id = p.category_id.getD b.category_id) := by
  refine ⟨?_, ?_, ?_⟩
  · intro p db eid l hex htags hlen
    obtain ⟨x, hx, hid⟩ := hex
    obtain ⟨x0, hfind⟩ := find?_isSome_of_exists (fun x => x.id == eid) db.expenses
      ⟨x, hx, by simp [hid]⟩
    simp [update_expense, hfind, htags]
    simpa using hlen
  · intro p db e hfind htags
    refine ⟨{ e with
        description := p.description.getD e.description,
        amount := (p.amount.map Dec.quant2).getD e.amount,
        category_id := p.category_id.getD e.category_id,
        expense_date := p.expense_date.getD e.expense_date,
        receipt_image := match p.receipt_image with
          | none => e.receipt_image
          | some r => some r },
      { db with expenses := db.expenses.map (fun x =>
          if x.id == e.id then { e with
            description := p.description.getD e.description,
            amount := (p.amount.map Dec.quant2).getD e.amount,
            category_id := p.category_id.getD e.category_id,
            expense_date := p.expense_date.getD e.expense_date,
            receipt_image := match p.receipt_image with
              | none => e.receipt_image
              | some r => some r } else x) }, ?_, rfl⟩
    simp [update_expense, hfind, htags]
  · intro p db b hfind
    refine ⟨{ b with
        category_id := p.category_id.getD b.category_id,
        amount := (p.amount.map Dec.quant2).getD b.amount,
        period := p.period.getD b.period,
        start_date := p.start_date.getD b.start_date },
      { db with budgets := db.budgets.map (fun x =>
          if x.id == b.id then { b with
            category_id := p.category_id.getD b.category_id,
            amount := (p.amount.map Dec.quant2).getD b.amount,
            period := p.period.getD b.period,
            start_date := p.start_date.getD b.start_date } else x) }, ?_, rfl⟩
    simp [update_budget, hfind]

/-- Witness for C5 at concrete stores and payloads. -/
theorem update_foreign_key_checks_tags_only_witness :
    update_expense ⟨none, none, none, none, none, some [5]⟩ 1 dbE
      = .error (.notFound "One or more tags not found") ∧
    (∃ e2 db2, update_expense ⟨none, none, some (some 42), none, none, none⟩
        (⟨1, 1, none, "Lunch", ⟨1000, 2⟩, ⟨2026, 1, 6⟩, none⟩ : Expense).id dbE
        = .ok (e2, db2) ∧
      e2.category_id = (some (some 42) : Option (Option Nat)).getD
        (⟨1, 1, none, "Lunch", ⟨1000, 2⟩, ⟨2026, 1, 6⟩, none⟩ : Expense).category_id) ∧
    (∃ b2 db2, update_budget ⟨some (some 42), none, none, none⟩
        (⟨1, 1, none, ⟨50000, 2⟩, "monthly", ⟨2026, 1, 1⟩⟩ : Budget).id dbE
        = .ok (b2, db2) ∧
      b2.category_id = (some (some 42) : Option (Option Nat)).getD
        (⟨1, 1, none, ⟨50000, 2⟩, "monthly", ⟨2026, 1, 1⟩⟩ : Budget).category_id) :=
  ⟨update_foreign_key_checks_tags_only.1 ⟨none, none, none, none, none, some [5]⟩ dbE 1 [5]
     (by decide) rfl (by decide),
   update_foreign_key_checks_tags_only.2.1 ⟨none, none, some (some 42), none, none, none⟩ dbE
     ⟨1, 1, none, "Lunch", ⟨1000, 2⟩, ⟨2026, 1, 6⟩, none⟩ (by decide) rfl,
   update_foreign_key_checks_tags_only.2.2 ⟨some (some 42), none, none, none⟩ dbE
     ⟨1, 1, none, ⟨50000, 2⟩, "monthly", ⟨2026, 1, 1⟩⟩ (by decide)⟩

-- ==================== C8 ====================

/-- A validated budget-update payload carries either no period or a period
from the canonical enumeration. -/
theorem validateBudgetUpdate_ok_period (b v : BudgetUpdateSchema)
    (h : validateBudgetUpdate b = .ok v) :
    v.period = none ∨ ∃ q, v.period = some q ∧ q ∈ allowed_periods := by
  cases hp : b.period with
  | none =>
    simp only [validateBudgetUpdate, hp] at h
    split_ifs at h
    all_goals cases h
    all_goals exact Or.inl hp
  | some q =>
    simp only [validateBudgetUpdate, hp] at h
    split_ifs at h
    all_goals cases h
    all_goals exact Or.inr ⟨strLower q, rfl, by assumption⟩

/-- A successful `update_budget` found a stored row, merged the present
payload fields onto it, and replaced exactly that row. -/
theorem update_budget_ok_shape (p : BudgetUpdateSchema) (bid : Nat) (db : DB)
    (row : Budget) (db2 : DB) (h : update_budget p bid db = .ok (row, db2)) :
    ∃ b, db.budgets.find? (fun x => x.id == bid) = some b ∧ b ∈ db.budgets ∧
      row.period = p.period.getD b.period ∧
      db2.budgets = db.budgets.map (fun x => if x.id == bid then row else x) := by
  cases hf : db.budgets.find? (fun x => x.id == bid) with
  | none => simp [update_budget, hf] at h
  | some b =>
    simp only [update_budget, hf] at h
    cases h
    exact ⟨b, rfl, List.mem_of_find?_eq_some hf, rfl, rfl⟩

/-- C8: budget period input is accepted case-insensitively (any value whose
lowercase form is canonical is accepted and stored lowercased, any other
value is rejected with the period validation error), and the invariant
"every stored budget's period is one of the four canonical lowercase
values" is preserved by budget creation and update. -/
theorem budget_period_normalized_invariant :
    (∀ raw : BudgetCreateSchema, 0 < raw.amount.num → raw.amount.scale ≤ 2 →
       raw.period.length ≤ 20 →
       (strLower raw.period ∈ allowed_periods →
          validateBudgetCreate raw = .ok { raw with period := strLower raw.period }) ∧
       (strLower raw.period ∉ allowed_periods →
          validateBudgetCreate raw
            = .error "Period must be one of: daily, weekly, monthly, yearly")) ∧
    (∀ (raw : BudgetCreateSchema) (uid : Nat) (db : DB) (row : Budget) (db2 : DB),
       (∀ b ∈ db.budgets, b.period ∈ allowed_periods) →
       POST_budgets raw uid db = .ok (row, db2) →
       ∀ b ∈ db2.budgets, b.period ∈ allowed_periods) ∧
    (∀ (raw : BudgetUpdateSchema) (bid : Nat) (db : DB) (row : Budget) (db2 : DB),
       (∀ b ∈ db.budgets, b.period ∈ allowed_periods) →
       PUT_budgets raw bid db = .ok (row, db2) →
       ∀ b ∈ db2.budgets, b.period ∈ allowed_periods) := by
  refine ⟨?_, ?_, ?_⟩
  · intro raw h1 h2 h3
    constructor
    · intro hmem
      rw [validateBudgetCreate_eq_ok_iff]
      exact ⟨rfl, h1, h2, h3, hmem⟩
    · intro hnm
      unfold validateBudgetCreate
      split_ifs with g1 g2 g3
      · exact absurd g1 (by omega)
      · exact absurd g2 (by omega)
      · exact absurd g3 (by omega)
      · rfl
  · intro raw uid db row db2 hinv hok
    cases hv : validateBudgetCreate raw with
    | error m => simp [POST_budgets, runValidated, hv] at hok
    | ok v =>
      obtain ⟨hveq, _, _, _, hmem⟩ := (validateBudgetCreate_eq_ok_iff raw v).mp hv
      simp only [POST_budgets, runValidated, hv] at hok
      obtain ⟨hrow, hdb⟩ := create_budget_ok_shape v uid db row db2 hok
      intro b hb
      rw [hdb] at hb
      rcases List.mem_append.mp hb with hold | hnew
      · exact hinv b hold
      · have hbr : b = row := by simpa using hnew
        rw [hbr, hrow]
        show v.period ∈ allowed_periods
        rw [hveq]
        exact hmem
  · intro raw bid db row db2 hinv hok
    cases hv : validateBudgetUpdate raw with
    | error m => simp [PUT_budgets, runValidated, hv] at hok
    | ok p =>
      simp only [PUT_budgets, runValidated, hv] at hok
      obtain ⟨b, hf, hbmem, hper, hdb⟩ := update_budget_ok_shape p bid db row db2 hok
      have hrowper : row.period ∈ allowed_periods := by
        rcases validateBudgetUpdate_ok_period raw p hv with hpn | ⟨q, hpq, hqmem⟩
        · rw [hper, hpn]
          exact hinv b hbmem
        · rw [hper, hpq]
          exact hqmem
      intro x hx
      rw [hdb] at hx
      rcases List.mem_map.mp hx with ⟨y, hy, hxy⟩
      by_cases hid : (y.id == bid) = true
      · rw [← hxy, if_pos hid]
        exact hrowper
      · rw [← hxy, if_neg hid]
        exact hinv y hy

/-- Budget-creation payload for the C8 witness, with mixed-case period. -/
def rawB8 : BudgetCreateSchema := ⟨none, ⟨30000, 2⟩, "Weekly", ⟨2026, 1, 1⟩⟩

/-- The row created from `rawB8`: period stored lowercased. -/
def rowB8 : Budget := ⟨1, 1, none, ⟨30000, 2⟩, "weekly", ⟨2026, 1, 1⟩⟩

/-- The store after creating `rawB8` in `dbU`. -/
def dbB8 : DB := { dbU with budgets := [rowB8], nextBudgetId := 2 }

/-- Witness for C8 at concrete payloads. -/
theorem budget_period_normalized_invariant_witness :
    validateBudgetCreate ⟨none, ⟨10000, 2⟩, "Monthly", ⟨2026, 1, 1⟩⟩
      = .ok ⟨none, ⟨10000, 2⟩, strLower "Monthly", ⟨2026, 1, 1⟩⟩ ∧
    (∀ b ∈ dbB8.budgets, b.period ∈ allowed_periods) :=
  ⟨(budget_period_normalized_invariant.1 ⟨none, ⟨10000, 2⟩, "Monthly", ⟨2026, 1, 1⟩⟩
      (by decide) (by decide) (by decide)).1 (by decide),
   budget_period_normalized_invariant.2.1 rawB8 1 dbU rowB8 dbB8 (by decide) rfl⟩
